import Mathlib

/-!
Shallow embedding of the session/connection layer of `src/headless_browser.ts`
(the `HeadlessBrowser` class): the message correlator (request ids and pending
result slots), the socket event handlers, the send primitive, and the command
facade (`click`, `getInputValue`, `checkForErrorResult`, `done`).
-/

namespace Sinco

/-- Opaque protocol payloads (the `unknown`-typed `result` / `error` fields of a
response frame) are modelled as strings. -/
abbrev Payload := String

/-- State of one pending result slot, i.e. of one `deferred()` promise stored in
`this.resolvables`.  A deferred is one-shot: once settled, further `resolve` or
`reject` calls have no effect. -/
inductive SlotState
  | pending
  | resolved (v : Payload)
  | rejected (e : Payload)
deriving DecidableEq, Repr

/-- `resolve` on a deferred: settles a pending slot, no-op otherwise. -/
def resolveSlot : SlotState → Payload → SlotState
  | SlotState.pending, v => SlotState.resolved v
  | s, _ => s

/-- `reject` on a deferred: settles a pending slot, no-op otherwise. -/
def rejectSlot : SlotState → Payload → SlotState
  | SlotState.pending, e => SlotState.rejected e
  | s, _ => s

/-- The `resolvables` object, keyed by numeric request id, as an association
list (JS object keys are unique). -/
abbrev Resolvables := List (Nat × SlotState)

/-- Key lookup in `resolvables` (`this.resolvables[id]`, `undefined` = `none`). -/
def lookupSlot : Resolvables → Nat → Option SlotState
  | [], _ => none
  | (k, v) :: rest, i => if k = i then some v else lookupSlot rest i

/-- Key assignment in `resolvables` (`this.resolvables[id] = ...`). -/
def setSlot : Resolvables → Nat → SlotState → Resolvables
  | [], i, w => [(i, w)]
  | (k, v) :: rest, i, w =>
    if k = i then (k, w) :: rest else (k, v) :: setSlot rest i w

/-- Parameter objects sent with a request; the repository only ever sends
string-valued entries (an `expression` key). -/
abbrev Params := List (String × String)

/-- An outbound frame `\x7bid, method, params?\x7d`; `params = none` models the key
being omitted from the serialized object. -/
structure Frame where
  id : Nat
  method : String
  params : Option Params
deriving DecidableEq, Repr

/-- The mutable state of one `HeadlessBrowser` instance that the claims are
about.  `hasSocket` models `this.socket !== null`. -/
structure Session where
  connected : Bool
  connecting : Bool
  is_done : Bool
  next_message_id : Nat
  resolvables : Resolvables
  hasSocket : Bool
deriving DecidableEq, Repr

/-- The field values established by the constructor. -/
def initialSession : Session :=
  { connected := false
    connecting := false
    is_done := false
    next_message_id := 1
    resolvables := []
    hasSocket := false }

/-- A parsed inbound frame.  JS property-presence tests (`message.method`,
`"id" in message`, `"result" in message`, `"error" in message`) become
`Option`-valuedness of the corresponding field. -/
structure InboundMessage where
  method? : Option String
  id? : Option Nat
  result? : Option Payload
  error? : Option Payload
deriving DecidableEq, Repr

/-- The notification that flips the connection state: method equal to
`Network.loadingFinished`. -/
def isLoadingFinished (m : InboundMessage) : Bool :=
  m.method? == some "Network.loadingFinished"

/-- What `socket.onmessage` does to the slot found for a response id: resolve
with the `result` payload when that key is present, then reject with the
`error` payload when that key is present (the deferred keeps the first
settlement). -/
def fulfill (slot : SlotState) (m : InboundMessage) : SlotState :=
  let slot1 :=
    match m.result? with
    | some v => resolveSlot slot v
    | none => slot
  match m.error? with
  | some e => rejectSlot slot1 e
  | none => slot1

/-- The `socket.onmessage` handler: a `Network.loadingFinished` notification
sets `connected` and returns early; otherwise a message carrying an `id` whose
slot is registered gets that slot settled (the entry is updated in place, never
deleted); anything else leaves the state untouched. -/
def onmessage (s : Session) (m : InboundMessage) : Session :=
  if isLoadingFinished m then
    { s with connected := true, connecting := false }
  else
    match m.id? with
    | none => s
    | some i =>
      match lookupSlot s.resolvables i with
      | none => s
      | some slot =>
        { s with resolvables := setSlot s.resolvables i (fulfill slot m) }

/-- The `socket.onopen` handler: sends the `Network.enable` handshake frame
with the current `next_message_id` (no slot is registered for it) and
increments the counter. -/
def onopen (s : Session) : Session × Frame :=
  ({ s with next_message_id := s.next_message_id + 1 },
   { id := s.next_message_id, method := "Network.enable", params := none })

/-- The `socket.onclose` handler: clears both connection flags (the error path
when `is_done` is false is modelled by `oncloseFatal`). -/
def onclose (s : Session) : Session :=
  { s with connected := false, connecting := false }

/-- Whether `socket.onclose` treats the close as fatal (it throws exactly when
`this.is_done === false`). -/
def oncloseFatal (s : Session) : Bool :=
  !s.is_done

/-- The `socket.onerror` handler: clears both connection flags. -/
def onerror (s : Session) : Session :=
  { s with connected := false, connecting := false }

/-- Outcome of one call to `sendWebSocketMessage`: a frame was transmitted and
a pending handle at `handleId` returned, or the connecting branch was taken
(delay and re-issue), or the method fell through and returned `undefined`. -/
inductive SendResult
  | sent (f : Frame) (handleId : Nat)
  | retry
  | nothing
deriving DecidableEq, Repr

/-- One attempt of `sendWebSocketMessage(method, params)`: while
`this.connected && this.socket`, allocate `this.next_message_id++` as the id,
build `\x7bid, method, params?\x7d` omitting `params` when absent, register a fresh
deferred under the id and transmit the frame; else, while `this.connecting`,
signal a retry; otherwise return `undefined` and change nothing. -/
def sendWebSocketMessage (s : Session) (method : String) (params : Option Params) :
    Session × SendResult :=
  if s.connected && s.hasSocket then
    let i := s.next_message_id
    let f : Frame := { id := i, method := method, params := params }
    ({ s with
        next_message_id := i + 1
        resolvables := setSlot s.resolvables i SlotState.pending },
     SendResult.sent f i)
  else if s.connecting then
    (s, SendResult.retry)
  else
    (s, SendResult.nothing)

/-- The fixed delay (ms) of the connecting-retry branch: `await delay(100)`. -/
def DELAY_MS : Nat := 100

/-- The recursion of `sendWebSocketMessage` in the connecting state, run
against the session states it observes at each attempt (each retry consumes
one observation after a `DELAY_MS` wait).  Returns the total delay waited and
the frame eventually transmitted, if any. -/
def sendAttempts (method : String) (params : Option Params) :
    List Session → Nat × Option Frame
  | [] => (0, none)
  | s :: rest =>
    match (sendWebSocketMessage s method params).2 with
    | SendResult.sent f _ => (0, some f)
    | SendResult.retry =>
      let wr := sendAttempts method params rest
      (DELAY_MS + wr.1, wr.2)
    | SendResult.nothing => (0, none)

/-- The externally triggered events a session reacts to: the `start()` call
(which flips `connecting` and installs the socket), the socket handlers
firing, and calls to `sendWebSocketMessage` (a single attempt). -/
inductive Event
  | startCall
  | sockOpen
  | msg (m : InboundMessage)
  | send (method : String) (params : Option Params)
  | sockClose
  | sockError
deriving DecidableEq, Repr

/-- One event applied to a session: the new session and the outbound frame
transmitted by that event, if any. -/
def step (s : Session) : Event → Session × Option Frame
  | Event.startCall => ({ s with connecting := true, hasSocket := true }, none)
  | Event.sockOpen =>
    let sf := onopen s
    (sf.1, some sf.2)
  | Event.msg m => (onmessage s m, none)
  | Event.send method params =>
    match sendWebSocketMessage s method params with
    | (s1, SendResult.sent f _) => (s1, some f)
    | (s1, _) => (s1, none)
  | Event.sockClose => (onclose s, none)
  | Event.sockError => (onerror s, none)

/-- A whole run: fold `step` over an event list, collecting every outbound
frame in transmission order. -/
def run : Session → List Event → Session × List Frame
  | s, [] => (s, [])
  | s, e :: rest =>
    let sf := step s e
    let rf := run sf.1 rest
    (rf.1, sf.2.toList ++ rf.2)

/-- Whether an event is the arrival of the `Network.loadingFinished`
notification. -/
def isLFEvent : Event → Bool
  | Event.msg m => isLoadingFinished m
  | _ => false

/-! ### Command facade -/

/-- The nested `exception` object of an exception-details block. -/
structure ExceptionInfo where
  className : String
  description : String
deriving DecidableEq, Repr

/-- The `exceptionDetails` block present on a `Runtime.evaluate` result when
the evaluated expression raised. -/
structure ExceptionDetails where
  exception : ExceptionInfo
  text : String
deriving DecidableEq, Repr

/-- The tagged `result` of a `Runtime.evaluate` response: its `type`
discriminator and its optional `value` (present for string or boolean
results). -/
structure ResultV where
  type : String
  value : Option String
deriving DecidableEq, Repr

/-- A `Runtime.evaluate` response body (`DOMOutput` in the source). -/
structure DOMOutput where
  result : ResultV
  exceptionDetails : Option ExceptionDetails
deriving DecidableEq, Repr

/-- JS `s.indexOf(pat) > -1` on character lists: some suffix of `s` starts
with `pat`. -/
def listContainsSub (pat : List Char) : List Char → Bool
  | [] => pat.isEmpty
  | c :: cs => pat.isPrefixOf (c :: cs) || listContainsSub pat cs

/-- JS `s.indexOf(pat) > -1`. -/
def strContains (s pat : String) : Bool :=
  listContainsSub pat.data s.data

/-- JS `s.replace(pat, "")` with a string pattern: remove the FIRST occurrence
of `pat`, leave `s` unchanged when `pat` does not occur. -/
def removeFirstSub (pat : List Char) : List Char → List Char
  | [] => []
  | c :: cs =>
    if pat.isPrefixOf (c :: cs) then (c :: cs).drop pat.length
    else c :: removeFirstSub pat cs

/-- JS `s.replace(pat, "")` on strings. -/
def strRemoveFirst (s pat : String) : String :=
  String.mk (removeFirstSub pat.data s.data)

/-- The two error variants `checkForErrorResult` can throw: `SyntaxError` with
a message, or a plain `Error` with a message. -/
inductive EvalError
  | SyntaxError (message : String)
  | GenericError (message : String)
deriving DecidableEq, Repr

/-- `checkForErrorResult(result, commandSent)`: raises nothing without an
`exceptionDetails` block; with one, classifies by whether the nested
description contains the substring `SyntaxError`, removing the first
occurrence of `SyntaxError: ` from the message in the syntax case and
appending the command in backticks, or appending the command in double quotes
to the raw description in the generic case. -/
def checkForErrorResult (result : DOMOutput) (commandSent : String) : Option EvalError :=
  match result.exceptionDetails with
  | none => none
  | some exceptionDetail =>
    let errorMessage := exceptionDetail.exception.description
    if strContains errorMessage "SyntaxError" then
      let message := strRemoveFirst errorMessage "SyntaxError: "
      some (EvalError.SyntaxError (message ++ ": \x60" ++ commandSent ++ "\x60"))
    else
      some (EvalError.GenericError (errorMessage ++ ": \"" ++ commandSent ++ "\""))

/-- The expression string `getInputValue` evaluates. -/
def getInputValueCommand (selector : String) : String :=
  "document.querySelector(\x27" ++ selector ++ "\x27).value"

/-- What `getInputValue` does with the `Runtime.evaluate` response: return the
sentinel `"undefined"` when the type discriminator is `undefined`, otherwise
classify for errors (throw = `Except.error`) and return `value || ""`. -/
def getInputValueHandle (selector : String) (res : DOMOutput) : Except EvalError String :=
  let command := getInputValueCommand selector
  if res.result.type = "undefined" then Except.ok "undefined"
  else
    match checkForErrorResult res command with
    | some e => Except.error e
    | none => Except.ok (res.result.value.getD "")

/-- The expression string `click` evaluates. -/
def clickCommand (selector : String) : String :=
  "document.querySelector(\x27" ++ selector ++ "\x27).click()"

/-- The settle delay `click` sleeps after classifying: `sleep(1000)`. -/
def CLICK_SETTLE_MS : Nat := 1000

/-- `click(selector)` against a session and the response the evaluation
produces: the send attempt with method `Runtime.evaluate` and the expression
as sole parameter, the error classification of the response, and the settle
delay imposed before returning. -/
def click (s : Session) (selector : String) (res : DOMOutput) :
    Session × SendResult × Option EvalError × Nat :=
  let command := clickCommand selector
  let sent := sendWebSocketMessage s "Runtime.evaluate" (some [("expression", command)])
  (sent.1, sent.2, checkForErrorResult res command, CLICK_SETTLE_MS)

/-! ### Shutdown -/

/-- The observable effects `done()` performs, in program order. -/
inductive Effect
  | sleepMs (ms : Nat)
  | markDone
  | stderrClose
  | processClose
  | addSocketCloseListener
  | socketClose
  | awaitCloseSignal
deriving DecidableEq, Repr

/-- The whole-object state `done()` manipulates: the session plus the
subprocess stderr handle, the subprocess itself, the number of close listeners
registered on the socket, and whether the socket is open. -/
structure BrowserState where
  session : Session
  stderrOpen : Bool
  processRunning : Bool
  closeListenerCount : Nat
  socketOpen : Bool
deriving DecidableEq, Repr

/-- `done()`: sleep the drain delay, set `is_done`, close stderr, close the
subprocess, register one close listener resolving the completion deferred,
close the socket, await the deferred.  Returns the final state and the effect
sequence in execution order. -/
def done (st : BrowserState) : BrowserState × List Effect :=
  let st1 := { st with session := { st.session with is_done := true } }
  let st2 := { st1 with stderrOpen := false }
  let st3 := { st2 with processRunning := false }
  let st4 := { st3 with closeListenerCount := st3.closeListenerCount + 1 }
  let st5 := { st4 with socketOpen := false }
  (st5,
   [Effect.sleepMs 1000, Effect.markDone, Effect.stderrClose, Effect.processClose,
    Effect.addSocketCloseListener, Effect.socketClose, Effect.awaitCloseSignal])

/-! ### Helper lemmas about the slot mapping -/

theorem lookupSlot_setSlot_self (r : Resolvables) (i : Nat) (w : SlotState) :
    lookupSlot (setSlot r i w) i = some w := by
  induction r with
  | nil => simp [setSlot, lookupSlot]
  | cons kv rest ih =>
    obtain ⟨k, v⟩ := kv
    by_cases h : k = i
    · simp [setSlot, lookupSlot, h]
    · simp [setSlot, lookupSlot, h, ih]

theorem lookupSlot_setSlot_other (r : Resolvables) (i j : Nat) (w : SlotState)
    (h : j ≠ i) :
    lookupSlot (setSlot r i w) j = lookupSlot r j := by
  induction r with
  | nil =>
    have h' : ¬ i = j := fun hh => h hh.symm
    simp [setSlot, lookupSlot, h']
  | cons kv rest ih =>
    obtain ⟨k, v⟩ := kv
    by_cases hk : k = i
    · subst hk
      have h' : ¬ k = j := fun hh => h hh.symm
      simp [setSlot, lookupSlot, h']
    · by_cases hkj : k = j
      · simp [setSlot, lookupSlot, hk, hkj, h]
      · simp [setSlot, lookupSlot, hk, hkj, ih]

/-! ### C1 -/

/-- A session with one outstanding request (id 1). -/
def c1Session : Session :=
  { connected := true
    connecting := false
    is_done := false
    next_message_id := 2
    resolvables := [(1, SlotState.pending)]
    hasSocket := true }

/-- The matching success response for request id 1. -/
def c1Response : InboundMessage :=
  { method? := none, id? := some 1, result? := some "ok", error? := none }

/-- C1 counterexample: after the matching response for id 1 arrives and
fulfills the slot, the entry is NOT removed from `resolvables` — it is still
present, now holding the fulfilled slot, so the mapping does not contain only
still-unfulfilled requests. -/
theorem c1_slot_not_removed :
    lookupSlot (onmessage c1Session c1Response).resolvables 1
        = some (SlotState.resolved "ok") ∧
    lookupSlot (onmessage c1Session c1Response).resolvables 1 ≠ none := by
  exact ⟨by decide, by decide⟩

/-- C1 (amended): once the matching Response arrives, the pending slot is
fulfilled in place (resolved with the success payload or rejected with the
error payload) but it is never removed from the request-id-to-slot mapping;
the entry remains present after fulfillment. -/
theorem c1_fulfilled_slot_stays (s : Session) (m : InboundMessage) (i : Nat)
    (slot : SlotState)
    (hm : m.method? = none) (hid : m.id? = some i)
    (hslot : lookupSlot s.resolvables i = some slot) :
    lookupSlot (onmessage s m).resolvables i = some (fulfill slot m) ∧
    (lookupSlot (onmessage s m).resolvables i).isSome = true := by
  have hlf : isLoadingFinished m = false := by simp [isLoadingFinished, hm]
  constructor
  · simp [onmessage, hlf, hid, hslot, lookupSlot_setSlot_self]
  · simp [onmessage, hlf, hid, hslot, lookupSlot_setSlot_self]

/-- Witness for the amended C1 at the concrete session and response above. -/
theorem c1_fulfilled_slot_stays_witness :
    lookupSlot (onmessage c1Session c1Response).resolvables 1
        = some (fulfill SlotState.pending c1Response) :=
  (c1_fulfilled_slot_stays c1Session c1Response 1 SlotState.pending rfl rfl rfl).1

/-! ### C2 -/

/-- C2: a Response (no `method` key) carrying an id with a registered slot gets
that slot resolved with the success payload when present, rejected with the
error payload when present; every other slot is untouched (so concurrently
outstanding commands are demultiplexed purely by id, independent of arrival
order); and a Response whose id has no registered slot leaves the session
completely unchanged. -/
theorem c2_response_demultiplexed (s : Session) (m : InboundMessage) (i : Nat)
    (hm : m.method? = none) (hid : m.id? = some i) :
    (∀ slot v, lookupSlot s.resolvables i = some slot → m.result? = some v →
        m.error? = none →
        lookupSlot (onmessage s m).resolvables i = some (resolveSlot slot v)) ∧
    (∀ slot e, lookupSlot s.resolvables i = some slot → m.error? = some e →
        m.result? = none →
        lookupSlot (onmessage s m).resolvables i = some (rejectSlot slot e)) ∧
    (∀ j, j ≠ i →
        lookupSlot (onmessage s m).resolvables j = lookupSlot s.resolvables j) ∧
    (lookupSlot s.resolvables i = none → onmessage s m = s) := by
  have hlf : isLoadingFinished m = false := by simp [isLoadingFinished, hm]
  refine ⟨?_, ?_, ?_, ?_⟩
  · intro slot v hslot hres herr
    simp [onmessage, hlf, hid, hslot, lookupSlot_setSlot_self, fulfill, hres, herr]
  · intro slot e hslot herr hres
    simp [onmessage, hlf, hid, hslot, lookupSlot_setSlot_self, fulfill, herr, hres]
  · intro j hj
    cases hslot : lookupSlot s.resolvables i with
    | none => simp [onmessage, hlf, hid, hslot]
    | some slot =>
      simp only [onmessage, hlf, hid, hslot, Bool.false_eq_true, if_false]
      exact lookupSlot_setSlot_other _ _ _ _ hj
  · intro hnone
    simp [onmessage, hlf, hid, hnone]

/-- A session with two concurrently outstanding requests, ids 1 and 2. -/
def c2Session : Session :=
  { connected := true
    connecting := false
    is_done := false
    next_message_id := 3
    resolvables := [(1, SlotState.pending), (2, SlotState.pending)]
    hasSocket := true }

/-- The response for the LATER request (id 2), arriving first. -/
def c2Response : InboundMessage :=
  { method? := none, id? := some 2, result? := some "second", error? := none }

/-- Witness for C2: with requests 1 and 2 outstanding, the out-of-order
response for id 2 resolves exactly slot 2 and leaves slot 1 pending. -/
theorem c2_response_demultiplexed_witness :
    lookupSlot (onmessage c2Session c2Response).resolvables 2
        = some (SlotState.resolved "second") ∧
    lookupSlot (onmessage c2Session c2Response).resolvables 1
        = some SlotState.pending := by
  have h := c2_response_demultiplexed c2Session c2Response 2 rfl rfl
  refine ⟨h.1 SlotState.pending "second" rfl rfl rfl, ?_⟩
  have h2 := h.2.2.1 1 (by decide)
  rw [h2]
  decide

/-! ### C10 -/

/-- C10: a send attempt made while the session is neither connected nor
connecting returns `undefined`: no request id is allocated, no slot is
recorded, no frame is transmitted, and the session is unchanged. -/
theorem c10_send_disconnected (s : Session) (method : String) (params : Option Params)
    (h1 : s.connected = false) (h2 : s.connecting = false) :
    sendWebSocketMessage s method params = (s, SendResult.nothing) ∧
    step s (Event.send method params) = (s, none) := by
  have hs : sendWebSocketMessage s method params = (s, SendResult.nothing) := by
    simp [sendWebSocketMessage, h1, h2]
  exact ⟨hs, by simp [step, hs]⟩

/-- Witness for C10 at the freshly constructed session (start never called). -/
theorem c10_send_disconnected_witness :
    sendWebSocketMessage initialSession "Runtime.evaluate" none
        = (initialSession, SendResult.nothing) :=
  (c10_send_disconnected initialSession "Runtime.evaluate" none rfl rfl).1

/-! ### C4 -/

theorem removeFirstSub_of_isPrefixOf (pat l : List Char)
    (h : pat.isPrefixOf l = true) :
    removeFirstSub pat l = l.drop pat.length := by
  cases l with
  | nil => simp [removeFirstSub]
  | cons c cs => simp [removeFirstSub, h]

/-- The syntax-branch message the claim describes: the description with the
`SyntaxError: ` PREFIX stripped (unchanged when the description does not begin
with it). -/
def specPrefixStripped (desc : String) : String :=
  if ("SyntaxError: ").data.isPrefixOf desc.data then
    String.mk (desc.data.drop ("SyntaxError: ").data.length)
  else desc

/-- An evaluation result whose exception description contains `SyntaxError: `
other than as a prefix. -/
def c4Output : DOMOutput :=
  { result := { type := "object", value := none }
    exceptionDetails := some
      { exception :=
          { className := "SyntaxError", description := "Uncaught SyntaxError: oops" }
        text := "Uncaught" } }

/-- C4 counterexample: on a description containing `SyntaxError` but not
starting with `SyntaxError: `, the code removes the mid-string occurrence of
`SyntaxError: ` — the raised message is not the prefix-stripped description
with the expression appended, as the claim states. -/
theorem c4_counterexample :
    checkForErrorResult c4Output "window."
        = some (EvalError.SyntaxError "Uncaught oops: \x60window.\x60") ∧
    specPrefixStripped "Uncaught SyntaxError: oops" ++ ": \x60window.\x60"
        = "Uncaught SyntaxError: oops: \x60window.\x60" ∧
    ("Uncaught oops: \x60window.\x60" : String)
        ≠ "Uncaught SyntaxError: oops: \x60window.\x60" := by
  exact ⟨by decide, by decide, by decide⟩

/-- C4 (amended): with an exception-details block whose nested description
contains the substring `SyntaxError`, a SyntaxError variant is raised whose
message is the description with the FIRST OCCURRENCE of `SyntaxError: `
removed (which coincides with stripping the prefix whenever the description
begins with it) and the offending expression appended in backticks; otherwise
a generic error variant is raised carrying the raw description and the
expression with nothing removed; without the block, nothing is raised. -/
theorem c4_error_classification (d : DOMOutput) (cmd : String)
    (ed : ExceptionDetails) (hed : d.exceptionDetails = some ed) :
    (strContains ed.exception.description "SyntaxError" = true →
      checkForErrorResult d cmd = some (EvalError.SyntaxError
        (strRemoveFirst ed.exception.description "SyntaxError: "
          ++ ": \x60" ++ cmd ++ "\x60"))) ∧
    (strContains ed.exception.description "SyntaxError" = false →
      checkForErrorResult d cmd = some (EvalError.GenericError
        (ed.exception.description ++ ": \"" ++ cmd ++ "\""))) ∧
    (("SyntaxError: ").data.isPrefixOf ed.exception.description.data = true →
      strRemoveFirst ed.exception.description "SyntaxError: "
        = specPrefixStripped ed.exception.description) ∧
    (∀ d2 : DOMOutput, d2.exceptionDetails = none →
      checkForErrorResult d2 cmd = none) := by
  refine ⟨?_, ?_, ?_, ?_⟩
  · intro hc
    simp [checkForErrorResult, hed, hc]
  · intro hc
    simp [checkForErrorResult, hed, hc]
  · intro hp
    simp [strRemoveFirst, specPrefixStripped, hp,
      removeFirstSub_of_isPrefixOf _ _ hp]
  · intro d2 h2
    simp [checkForErrorResult, h2]

/-- An evaluation result for a plain syntax error, description starting with
`SyntaxError: `. -/
def c4SyntaxOutput : DOMOutput :=
  { result := { type := "object", value := none }
    exceptionDetails := some
      { exception :=
          { className := "SyntaxError"
            description := "SyntaxError: Unexpected identifier" }
        text := "Uncaught" } }

/-- Witness for the amended C4: the usual syntax-error description yields the
stripped message with the expression appended. -/
theorem c4_error_classification_witness :
    checkForErrorResult c4SyntaxOutput "window."
        = some (EvalError.SyntaxError "Unexpected identifier: \x60window.\x60") := by
  have h := c4_error_classification c4SyntaxOutput "window."
      { exception :=
          { className := "SyntaxError"
            description := "SyntaxError: Unexpected identifier" }
        text := "Uncaught" } rfl
  have h1 := h.1 (by decide)
  rw [h1]
  decide

/-! ### C5 -/

/-- C5: `getInputValue` evaluates the property-read expression built from the
selector; a response whose discriminator is `undefined` yields the sentinel
string `"undefined"` with no error classification (even if an exception block
were present); otherwise an error classification is surfaced as the failure,
and with no error the success `value` is returned, the empty string when it is
absent. -/
theorem c5_getInputValue (selector : String) (res : DOMOutput) :
    getInputValueCommand selector
        = "document.querySelector(\x27" ++ selector ++ "\x27).value" ∧
    (res.result.type = "undefined" →
      getInputValueHandle selector res = Except.ok "undefined") ∧
    (res.result.type ≠ "undefined" →
      (∀ e, checkForErrorResult res (getInputValueCommand selector) = some e →
          getInputValueHandle selector res = Except.error e) ∧
      (checkForErrorResult res (getInputValueCommand selector) = none →
        (∀ v, res.result.value = some v →
            getInputValueHandle selector res = Except.ok v) ∧
        (res.result.value = none →
            getInputValueHandle selector res = Except.ok ""))) := by
  refine ⟨rfl, ?_, ?_⟩
  · intro ht
    simp [getInputValueHandle, ht]
  · intro ht
    refine ⟨?_, ?_⟩
    · intro e he
      simp [getInputValueHandle, ht, he]
    · intro hnone
      refine ⟨?_, ?_⟩
      · intro v hv
        simp [getInputValueHandle, ht, hnone, hv]
      · intro hv
        simp [getInputValueHandle, ht, hnone, hv]

/-- A string-valued response carrying `"Edward"`. -/
def c5StringOutput : DOMOutput :=
  { result := { type := "string", value := some "Edward" }
    exceptionDetails := none }

/-- An `undefined`-typed response (the selector hit a non-input element). -/
def c5UndefinedOutput : DOMOutput :=
  { result := { type := "undefined", value := none }
    exceptionDetails := none }

/-- Witness for C5: the undefined discriminator returns the sentinel, and a
string response returns its literal value. -/
theorem c5_getInputValue_witness :
    getInputValueHandle "#name" c5UndefinedOutput = Except.ok "undefined" ∧
    getInputValueHandle "#name" c5StringOutput = Except.ok "Edward" := by
  refine ⟨(c5_getInputValue "#name" c5UndefinedOutput).2.1 rfl, ?_⟩
  exact (((c5_getInputValue "#name" c5StringOutput).2.2 (by decide)).2 rfl).1
    "Edward" rfl

/-! ### C8 -/

/-- C8: `done()` performs, in exactly this order, the drain delay, marking the
session intentionally closing, closing the captured stderr, terminating the
subprocess, registering one close listener for the completion signal, closing
the socket, and awaiting the signal; after the mark, the close handler no
longer treats the upcoming close as fatal. -/
theorem c8_done_sequence (st : BrowserState) :
    (done st).2
        = [Effect.sleepMs 1000, Effect.markDone, Effect.stderrClose,
           Effect.processClose, Effect.addSocketCloseListener,
           Effect.socketClose, Effect.awaitCloseSignal] ∧
    (done st).1.session.is_done = true ∧
    oncloseFatal (done st).1.session = false ∧
    (done st).1.stderrOpen = false ∧
    (done st).1.processRunning = false ∧
    (done st).1.closeListenerCount = st.closeListenerCount + 1 ∧
    (done st).1.socketOpen = false := by
  simp [done, oncloseFatal]

/-! ### C9 -/

/-- C9: on a connected session, `click` with selector `#login` transmits the
frame with the next request id, method `Runtime.evaluate`, and as sole
parameter the expression that calls querySelector on the single-quoted
selector `#login` followed by `.click()`; it classifies the response for
errors against that same expression and imposes the fixed 1000 ms settle
delay before returning. -/
theorem c9_click_login (s : Session) (res : DOMOutput)
    (hc : s.connected = true) (hs : s.hasSocket = true) :
    (click s "#login" res).2.1
        = SendResult.sent
            { id := s.next_message_id
              method := "Runtime.evaluate"
              params := some [("expression",
                "document.querySelector(\x27#login\x27).click()")] }
            s.next_message_id ∧
    (click s "#login" res).2.2.1
        = checkForErrorResult res "document.querySelector(\x27#login\x27).click()" ∧
    (click s "#login" res).2.2.2 = 1000 := by
  have hcmd : clickCommand "#login"
      = "document.querySelector(\x27#login\x27).click()" := by decide
  refine ⟨?_, ?_, rfl⟩
  · simp [click, hcmd, sendWebSocketMessage, hc, hs]
  · simp [click, hcmd]

/-- A connected session about to send request 5. -/
def connSession : Session :=
  { connected := true
    connecting := false
    is_done := false
    next_message_id := 5
    resolvables := []
    hasSocket := true }

/-- A response with no exception block. -/
def plainOutput : DOMOutput :=
  { result := { type := "string", value := none }
    exceptionDetails := none }

/-- Witness for C9 on the concrete connected session. -/
theorem c9_click_login_witness :
    (click connSession "#login" plainOutput).2.1
        = SendResult.sent
            { id := 5
              method := "Runtime.evaluate"
              params := some [("expression",
                "document.querySelector(\x27#login\x27).click()")] } 5 ∧
    (click connSession "#login" plainOutput).2.2.2 = 1000 := by
  have h := c9_click_login connSession plainOutput rfl rfl
  exact ⟨h.1, h.2.2⟩

/-! ### Trace lemmas: message-id monotonicity and connection state -/

theorem onmessage_next_message_id (s : Session) (m : InboundMessage) :
    (onmessage s m).next_message_id = s.next_message_id := by
  unfold onmessage
  split
  · rfl
  · split
    · rfl
    · split
      · rfl
      · rfl

theorem onmessage_connected_of_not_LF (s : Session) (m : InboundMessage)
    (h : isLoadingFinished m = false) :
    (onmessage s m).connected = s.connected := by
  unfold onmessage
  rw [h]
  simp only [Bool.false_eq_true, if_false]
  split
  · rfl
  · split
    · rfl
    · rfl

theorem sendWebSocketMessage_connected (s : Session) (method : String)
    (params : Option Params) :
    (sendWebSocketMessage s method params).1.connected = s.connected := by
  unfold sendWebSocketMessage
  split
  · rfl
  · split
    · rfl
    · rfl

theorem step_frame_id (s : Session) (e : Event) :
    s.next_message_id ≤ (step s e).1.next_message_id ∧
    ∀ f ∈ (step s e).2.toList,
      f.id = s.next_message_id ∧
      (step s e).1.next_message_id = s.next_message_id + 1 := by
  cases e with
  | startCall => simp [step]
  | sockOpen => simp [step, onopen]
  | msg m => simp [step, onmessage_next_message_id]
  | send method params =>
    by_cases h1 : s.connected && s.hasSocket
    · simp [step, sendWebSocketMessage, h1]
    · by_cases h2 : s.connecting
      · simp [step, sendWebSocketMessage, h1, h2]
      · simp [step, sendWebSocketMessage, h1, h2]
  | sockClose => simp [step, onclose]
  | sockError => simp [step, onerror]

theorem run_frames_spec : ∀ (evts : List Event) (s : Session),
    s.next_message_id ≤ (run s evts).1.next_message_id ∧
    (∀ f ∈ (run s evts).2,
        s.next_message_id ≤ f.id ∧ f.id < (run s evts).1.next_message_id) ∧
    List.Pairwise (fun f g : Frame => f.id < g.id) (run s evts).2 := by
  intro evts
  induction evts with
  | nil =>
    intro s
    simp [run]
  | cons e rest ih =>
    intro s
    obtain ⟨hle, hall⟩ := step_frame_id s e
    obtain ⟨ihle, ihmem, ihpw⟩ := ih (step s e).1
    simp only [run]
    refine ⟨le_trans hle ihle, ?_, ?_⟩
    · intro f hf
      rcases List.mem_append.1 hf with hf0 | hf1
      · obtain ⟨hid, hnext⟩ := hall f hf0
        have h1 := ihmem
        constructor
        · omega
        · have : (step s e).1.next_message_id ≤ (run (step s e).1 rest).1.next_message_id :=
            ihle
          omega
      · obtain ⟨h1, h2⟩ := ihmem f hf1
        exact ⟨le_trans hle h1, h2⟩
    · refine List.pairwise_append.2 ⟨?_, ihpw, ?_⟩
      · cases h : (step s e).2 <;> simp
      · intro f hf0 g hg
        obtain ⟨hid, hnext⟩ := hall f hf0
        obtain ⟨hg1, _⟩ := ihmem g hg
        omega

/-! ### C3 -/

/-- C3: a send attempt on a connected session allocates the current counter
value as the request id, increments the counter, records a fresh pending slot
under that id, transmits the frame with exactly that id, the given method and
the given optional params (omitted when absent), and returns the handle keyed
by that id; the counter starts at 1 in the fresh session, and across any run
of events (handshake included) no two transmitted frames share an id. -/
theorem c3_send_allocation (s : Session) (method : String) (params : Option Params)
    (hc : s.connected = true) (hs : s.hasSocket = true) :
    (sendWebSocketMessage s method params).2
        = SendResult.sent
            { id := s.next_message_id, method := method, params := params }
            s.next_message_id ∧
    (sendWebSocketMessage s method params).1.next_message_id
        = s.next_message_id + 1 ∧
    lookupSlot (sendWebSocketMessage s method params).1.resolvables
        s.next_message_id = some SlotState.pending ∧
    initialSession.next_message_id = 1 ∧
    (∀ evts : List Event,
        List.Pairwise (fun f g : Frame => f.id ≠ g.id)
          (run initialSession evts).2) := by
  refine ⟨?_, ?_, ?_, rfl, ?_⟩
  · simp [sendWebSocketMessage, hc, hs]
  · simp [sendWebSocketMessage, hc, hs]
  · simp [sendWebSocketMessage, hc, hs, lookupSlot_setSlot_self]
  · intro evts
    refine List.Pairwise.imp ?_ (run_frames_spec evts initialSession).2.2
    intro a b hlt
    exact Nat.ne_of_lt hlt

/-- Witness for C3 on the concrete connected session. -/
theorem c3_send_allocation_witness :
    (sendWebSocketMessage connSession "Runtime.evaluate" none).2
        = SendResult.sent
            { id := 5, method := "Runtime.evaluate", params := none } 5 ∧
    (sendWebSocketMessage connSession "Runtime.evaluate" none).1.next_message_id
        = 6 := by
  have h := c3_send_allocation connSession "Runtime.evaluate" none rfl rfl
  exact ⟨h.1, h.2.1⟩

/-! ### C6 -/

theorem step_connected_of_not_LF (s : Session) (e : Event)
    (hs : s.connected = false) (he : isLFEvent e = false) :
    (step s e).1.connected = false := by
  cases e with
  | startCall => simpa [step] using hs
  | sockOpen => simpa [step, onopen] using hs
  | msg m =>
    have hm : isLoadingFinished m = false := by simpa [isLFEvent] using he
    have := onmessage_connected_of_not_LF s m hm
    simpa [step, this] using hs
  | send method params =>
    rcases hsw : sendWebSocketMessage s method params with ⟨s1, r⟩
    have h1 : s1.connected = false := by
      have h := sendWebSocketMessage_connected s method params
      rw [hsw] at h
      simp only at h
      exact h.trans hs
    cases r <;> simp [step, hsw, h1]
  | sockClose => simp [step, onclose]
  | sockError => simp [step, onerror]

theorem run_connected_of_no_LF : ∀ (evts : List Event) (s : Session),
    s.connected = false → (∀ e ∈ evts, isLFEvent e = false) →
    (run s evts).1.connected = false := by
  intro evts
  induction evts with
  | nil =>
    intro s hs _
    simpa [run] using hs
  | cons e rest ih =>
    intro s hs hall
    have h1 : (step s e).1.connected = false :=
      step_connected_of_not_LF s e hs (hall e (List.mem_cons_self e rest))
    have h2 := ih (step s e).1 h1 (fun x hx => hall x (List.mem_cons_of_mem e hx))
    simpa [run] using h2

/-- C6: in a run from the fresh session, the connected flag can only be true
after a `Network.loadingFinished` notification has been observed — any event
sequence without one (socket opening and handshake included) leaves the state
not connected — and observing that notification is exactly what sets it. -/
theorem c6_connected_requires_loadingFinished :
    (∀ evts : List Event, (∀ e ∈ evts, isLFEvent e = false) →
        (run initialSession evts).1.connected = false) ∧
    (∀ (s : Session) (m : InboundMessage), isLoadingFinished m = true →
        (onmessage s m).connected = true) := by
  constructor
  · exact fun evts h => run_connected_of_no_LF evts initialSession rfl h
  · intro s m hm
    simp [onmessage, hm]

/-- The `Network.loadingFinished` notification frame. -/
def lfMessage : InboundMessage :=
  { method? := some "Network.loadingFinished", id? := none
    result? := none, error? := none }

/-- Witness for C6: opening the socket and sending the handshake leave the
fresh session not connected, while the loading-finished notification connects
it. -/
theorem c6_connected_requires_loadingFinished_witness :
    (run initialSession [Event.startCall, Event.sockOpen]).1.connected = false ∧
    (onmessage initialSession lfMessage).connected = true := by
  refine ⟨c6_connected_requires_loadingFinished.1 _ (by decide),
    c6_connected_requires_loadingFinished.2 initialSession lfMessage (by decide)⟩

/-! ### C7 -/

/-- C7: a send issued against a sequence of observed session states that stays
in the Connecting state (connecting, not connected) for any finite number of
polls and then reaches a Connected state does not fail: it waits the fixed
100 ms delay per poll and then transmits the frame carrying the same method
and params, succeeding once the state has become Connected. -/
theorem c7_send_while_connecting (pre : List Session) (sc : Session)
    (rest : List Session) (method : String) (params : Option Params)
    (hpre : ∀ s ∈ pre, s.connected = false ∧ s.connecting = true)
    (hc : sc.connected = true) (hs : sc.hasSocket = true) :
    sendAttempts method params (pre ++ sc :: rest)
        = (DELAY_MS * pre.length,
           some { id := sc.next_message_id, method := method, params := params }) := by
  induction pre with
  | nil =>
    have hsent : (sendWebSocketMessage sc method params).2
        = SendResult.sent
            { id := sc.next_message_id, method := method, params := params }
            sc.next_message_id := by
      simp [sendWebSocketMessage, hc, hs]
    simp [sendAttempts, hsent]
  | cons s0 pre' ih =>
    obtain ⟨h1, h2⟩ := hpre s0 (List.mem_cons_self _ _)
    have hr : (sendWebSocketMessage s0 method params).2 = SendResult.retry := by
      simp [sendWebSocketMessage, h1, h2]
    have ih' := ih (fun x hx => hpre x (List.mem_cons_of_mem _ hx))
    simp only [List.cons_append, sendAttempts, hr, List.append_eq]
    rw [ih']
    simp only [List.length_cons, DELAY_MS, Prod.mk.injEq]
    exact ⟨by omega, trivial⟩

/-- A session still in the Connecting state. -/
def connectingSession : Session :=
  { connected := false
    connecting := true
    is_done := false
    next_message_id := 2
    resolvables := []
    hasSocket := true }

/-- Witness for C7: two connecting polls then a connected state transmit the
frame after 200 ms of waiting. -/
theorem c7_send_while_connecting_witness :
    sendAttempts "Runtime.evaluate" none
        [connectingSession, connectingSession, connSession]
      = (200, some { id := 5, method := "Runtime.evaluate", params := none }) := by
  have h := c7_send_while_connecting [connectingSession, connectingSession]
      connSession [] "Runtime.evaluate" none (by decide) rfl rfl
  simpa [DELAY_MS] using h

end Sinco
